import Mathlib

/-!
Verification of the nova cloud control plane (ganttclient repository)
against its natural-language specification.

Shallow embedding of the Python sources:
  * `nova/scheduler/zone_manager.py` (ZoneState, ZoneManager)
  * `nova/endpoint/cloud.py`         (CloudController verbs)
  * `nova/auth/ldapdriver.py`        (LdapDriver)
  * `nova/auth/signer.py`            (Signer)

Python dicts are modelled as association lists, exceptions as `Except`,
external side effects (RPC casts, directory writes) as explicit effect
traces, and wall-clock time as a `Nat` parameter.
-/

namespace Nova

/-- Exceptions raised by the embedded code, mirroring the Python
exception classes that appear in the modelled functions. -/
inductive PyErr where
  | notFound (msg : String)
  | apiError (msg : String)
  | duplicate (msg : String)
  | nameError          -- Python UnboundLocalError / NameError
  | attributeError     -- Python AttributeError
  | externalError (msg : String)  -- an exception raised by an external collaborator
deriving Repr, DecidableEq

/-! ## nova/scheduler/zone_manager.py : ZoneState -/

/-- The reply of a successful zone poll (`zone_metadata` in
`ZoneState.update_metadata`): the zone name and its capability map. -/
structure ZoneMetadata where
  name : String
  capabilities : List (String × Int)
deriving Repr, DecidableEq

/-- `ZoneState.__init__` state: `is_active=True`, `attempt=0`,
`last_seen=datetime.min` (time is modelled as `Nat`, `datetime.min` as 0). -/
structure ZoneState where
  is_active : Bool
  name : Option String
  capabilities : Option (List (String × Int))
  attempt : Nat
  last_seen : Nat
  last_exception : Option String
  last_exception_time : Option Nat
deriving Repr, DecidableEq

def ZoneState.init : ZoneState :=
  { is_active := true, name := none, capabilities := none, attempt := 0,
    last_seen := 0, last_exception := none, last_exception_time := none }

/-- `ZoneState.update_metadata(zone_metadata)`: called after a successful
poll; `now` models `datetime.now()`. -/
def ZoneState.update_metadata (zs : ZoneState) (zone_metadata : ZoneMetadata)
    (now : Nat) : ZoneState :=
  { zs with
    last_seen := now
    attempt := 0
    name := some zone_metadata.name
    capabilities := some zone_metadata.capabilities
    is_active := true }

/-- `ZoneState.log_error(exception)`: records the error, increments
`attempt`, and marks the zone inactive once
`attempt >= FLAGS.zone_failures_to_offline` (`max_errors`). -/
def ZoneState.log_error (max_errors : Nat) (zs : ZoneState) (exc : String)
    (now : Nat) : ZoneState :=
  let zs1 := { zs with
    last_exception := some exc
    last_exception_time := some now
    attempt := zs.attempt + 1 }
  if max_errors ≤ zs1.attempt then { zs1 with is_active := false } else zs1

/-- Default of the flag `zone_failures_to_offline`. -/
def zone_failures_to_offline_default : Nat := 3

/-! ## nova/scheduler/zone_manager.py : ZoneManager.get_zone_capabilities -/

/-- `ZoneManager.service_states`: `{ <service> : { <host> : { cap : value }}}`,
modelled as nested association lists. -/
def ServiceStates := List (String × List (String × List (String × Int)))

/-- Look up a key in an association list (Python `dict.get(k, default)`
with the default supplied by the caller). -/
def assocGet {α : Type} (m : List (String × α)) (k : String) : Option α :=
  match m with
  | [] => none
  | (k', v) :: rest => if k' = k then some v else assocGet rest k

/-- Store a key in an association list (Python `dict[k] = v`). -/
def assocSet {α : Type} (m : List (String × α)) (k : String) (v : α) :
    List (String × α) :=
  match m with
  | [] => [(k, v)]
  | (k', v') :: rest =>
      if k' = k then (k, v) :: rest else (k', v') :: assocSet rest k v

/-- The inner loop body of `get_zone_capabilities`: fold one
`(cap, value)` entry of one host into the `combined` map, producing the
`<service>_<cap> : (min, max)` aggregate. -/
def combineCap (combined : List (String × (Int × Int))) (service_name : String)
    (cap : String) (value : Int) : List (String × (Int × Int)) :=
  let key := service_name ++ "_" ++ cap
  let mm := (assocGet combined key).getD (value, value)
  assocSet combined key (min mm.1 value, max mm.2 value)

/-- Fold all capabilities of one host into `combined`. -/
def combineHost (combined : List (String × (Int × Int))) (service_name : String)
    (caps : List (String × Int)) : List (String × (Int × Int)) :=
  caps.foldl (fun acc kv => combineCap acc service_name kv.1 kv.2) combined

/-- Fold all hosts of one service into `combined`. -/
def combineService (combined : List (String × (Int × Int))) (service_name : String)
    (host_dict : List (String × List (String × Int))) : List (String × (Int × Int)) :=
  host_dict.foldl (fun acc hv => combineHost acc service_name hv.2) combined

/-- A value of the heterogeneous dict
`dict(service_name=service, hosts=...)` built by
`get_zone_capabilities` when a `service` argument is given: the
`service_name` entry holds a string, the `hosts` entry holds a host map. -/
inductive ServiceDictVal where
  | str (s : String)
  | hosts (m : List (String × List (String × Int)))
deriving Repr, DecidableEq

/-- `ZoneManager.get_zone_capabilities(context, service=None)`.

Without a `service` argument it iterates
`service_states.iteritems()` directly.  With a `service` argument it
first rebinds `service_dict = dict(service_name=service,
hosts=self.service_states.get(service, {}))` and then iterates that
dict; calling `.iteritems()` on the string stored under `service_name`
raises `AttributeError`. -/
def get_zone_capabilities (service_states : ServiceStates)
    (service : Option String) : Except PyErr (List (String × (Int × Int))) :=
  match service with
  | none =>
      Except.ok (service_states.foldl
        (fun acc sv => combineService acc sv.1 sv.2) [])
  | some svc =>
      -- service_dict = {'service_name': svc, 'hosts': service_states.get(svc, {})}
      let service_dict : List (String × ServiceDictVal) :=
        [("service_name", ServiceDictVal.str svc),
         ("hosts", ServiceDictVal.hosts ((assocGet service_states svc).getD []))]
      -- for service_name, host_dict in service_dict.iteritems():
      --     for host, caps_dict in host_dict.iteritems():   <- AttributeError on a str
      service_dict.foldlM
        (fun acc (sv : String × ServiceDictVal) =>
          match sv.2 with
          | ServiceDictVal.str _ => Except.error PyErr.attributeError
          | ServiceDictVal.hosts m => Except.ok (combineService acc sv.1 m))
        []

/-- `ZoneManager.update_service_capabilities(service_name, host, capabilities)`. -/
def update_service_capabilities (service_states : ServiceStates)
    (service_name host : String) (capabilities : List (String × Int)) :
    ServiceStates :=
  let service_caps := (assocGet service_states service_name).getD []
  assocSet service_states service_name (assocSet service_caps host capabilities)

/-! ## nova/endpoint/cloud.py : CloudController.describe_key_pairs -/

/-- A key pair as seen through `context.user.get_key_pairs()`. -/
structure KeyPair where
  name : String
  fingerprint : String
deriving Repr, DecidableEq

/-- `CloudController.describe_key_pairs(context, key_name=None)`.
Returns the `keypairsSet` entries as `(keyName, keyFingerprint)` pairs.
`is_admin` models `context.user.is_admin()`, `vpn_key_suffix` the flag
`FLAGS.vpn_key_suffix`, `key_name` the optional name filter list. -/
def describe_key_pairs (is_admin : Bool) (vpn_key_suffix : String)
    (key_pairs : List KeyPair) (key_name : Option (List String)) :
    List (String × String) :=
  let kps := match key_name with
    | none => key_pairs
    | some names => key_pairs.filter (fun x => names.contains x.name)
  (kps.filter (fun kp => is_admin || !(kp.name.endsWith vpn_key_suffix))).map
    (fun kp => (kp.name, kp.fingerprint))

/-! ## nova/auth/ldapdriver.py : LdapDriver

The directory is modelled as: a list of existing user uids (the users
subtree) and an association list `dn ↦ member-DN list` for the
`groupOfNames` entries of the group subtree.  `__uid_to_dn` /
`__project_to_dn` first try a subtree search and fall back to the
generated DN; in a directory laid out by this driver the search result
coincides with the generated DN, which is what we model. -/

structure LdapFlags where
  ldap_user_id_attribute : String   -- default "uid"
  ldap_user_subtree : String
  ldap_project_subtree : String
deriving Repr, DecidableEq

/-- `LdapDriver.__uid_to_dn(uid)`. -/
def uid_to_dn (flags : LdapFlags) (uid : String) : String :=
  flags.ldap_user_id_attribute ++ "=" ++ uid ++ "," ++ flags.ldap_user_subtree

/-- `LdapDriver.__project_to_dn(pid)`. -/
def project_to_dn (flags : LdapFlags) (pid : String) : String :=
  "cn=" ++ pid ++ "," ++ flags.ldap_project_subtree

/-- `LdapDriver.__role_to_dn(role, project_id)`: a global role maps to
the per-role flag `FLAGS.ldap_<role>` (modelled by `global_role_dn`),
a project-scoped role nests under the project's DN. -/
def role_to_dn (flags : LdapFlags) (global_role_dn : String → String)
    (role : String) (project_id : Option String) : String :=
  match project_id with
  | none => global_role_dn role
  | some pid => "cn=" ++ role ++ "," ++ project_to_dn flags pid

/-- The `groupOfNames` entries of the group subtree: dn ↦ member DNs. -/
def GroupDir := List (String × List String)

/-- The attributes of the entry written by `LdapDriver.create_project`. -/
structure ProjectEntry where
  cn : String
  description : String
  manager_dn : String        -- the `project_attribute` value
  members : List String
deriving Repr, DecidableEq

/-- The member-building loop of `create_project`: checks each
`member_uid` exists and converts it to a DN. -/
def buildMembers (flags : LdapFlags) (users : List String) :
    Option (List String) → Except PyErr (List String)
  | none => Except.ok []
  | some uids =>
      uids.foldlM
        (fun acc uid =>
          if users.contains uid then Except.ok (acc ++ [uid_to_dn flags uid])
          else Except.error (PyErr.notFound
            ("Project can't be created because user " ++ uid ++ " doesn't exist")))
        []

/-- `LdapDriver.create_project(name, manager_uid, description=None,
member_uids=None)`.  `users` models the existing user uids, `projects`
the existing project names. -/
def create_project (flags : LdapFlags) (users : List String)
    (projects : List String) (name manager_uid : String)
    (description : Option String) (member_uids : Option (List String)) :
    Except PyErr ProjectEntry :=
  if projects.contains name then
    Except.error (PyErr.duplicate
      ("Project can't be created because project " ++ name ++ " already exists"))
  else if !(users.contains manager_uid) then
    Except.error (PyErr.notFound
      ("Project can't be created because manager " ++ manager_uid ++ " doesn't exist"))
  else
    let manager_dn := uid_to_dn flags manager_uid
    -- description is a required attribute
    let description := description.getD name
    match buildMembers flags users member_uids with
    | Except.error e => Except.error e
    | Except.ok members =>
        -- always add the manager as a member because members is required
        let members :=
          if members.contains manager_dn then members else members ++ [manager_dn]
        Except.ok { cn := name, description := description,
                    manager_dn := manager_dn, members := members }

/-- Result of the LDAP server executing
`modify_s(dn, [(MOD_DELETE, 'member', value)])` on a `groupOfNames`
entry: `NO_SUCH_OBJECT` when the entry is missing, `NO_SUCH_ATTRIBUTE`
when the value is absent, and `OBJECT_CLASS_VIOLATION` when removing
the value would leave the required `member` attribute empty. -/
inductive ModDeleteResult where
  | ok (groups : List (String × List String))
  | noSuchObject
  | noSuchAttribute
  | objectClassViolation
deriving Repr, DecidableEq

def mod_delete_member (groups : GroupDir) (group_dn value : String) :
    ModDeleteResult :=
  match assocGet groups group_dn with
  | none => ModDeleteResult.noSuchObject
  | some members =>
      if members.contains value then
        let rest := members.filter (fun m => m ≠ value)
        if rest.isEmpty then ModDeleteResult.objectClassViolation
        else ModDeleteResult.ok (assocSet groups group_dn rest)
      else ModDeleteResult.noSuchAttribute

/-- `dict.pop`: remove an entry from an association list. -/
def assocRemove {α : Type} (m : List (String × α)) (k : String) :
    List (String × α) :=
  m.filter (fun kv => kv.1 ≠ k)

/-- `LdapDriver.__delete_group(group_dn)`: `NotFound` when the group is
missing, else `delete_s`. -/
def delete_group (groups : GroupDir) (group_dn : String) :
    Except PyErr GroupDir :=
  match assocGet groups group_dn with
  | none => Except.error (PyErr.notFound
      ("Group at dn " ++ group_dn ++ " doesn't exist"))
  | some _ => Except.ok (assocRemove groups group_dn)

/-- `LdapDriver.__safe_remove_from_group(uid, group_dn)`: issues the
member MOD_DELETE and, when the server refuses with
`OBJECT_CLASS_VIOLATION` (last member), deletes the group instead. -/
def safe_remove_from_group (flags : LdapFlags) (groups : GroupDir)
    (uid group_dn : String) : Except PyErr GroupDir :=
  match mod_delete_member groups group_dn (uid_to_dn flags uid) with
  | ModDeleteResult.ok groups' => Except.ok groups'
  | ModDeleteResult.objectClassViolation => delete_group groups group_dn
  | ModDeleteResult.noSuchObject => Except.error (PyErr.externalError "NO_SUCH_OBJECT")
  | ModDeleteResult.noSuchAttribute =>
      Except.error (PyErr.externalError "NO_SUCH_ATTRIBUTE")

/-- `LdapDriver.__is_in_group(uid, group_dn)`: `NotFound` when the user
does not exist; `False` when the group does not exist; else a base-scope
search for `(member=<uid dn>)`. -/
def is_in_group (flags : LdapFlags) (users : List String) (groups : GroupDir)
    (uid group_dn : String) : Except PyErr Bool :=
  if !(users.contains uid) then
    Except.error (PyErr.notFound
      ("User " ++ uid ++ " can't be searched in group because the user doesn't exist"))
  else
    match assocGet groups group_dn with
    | none => Except.ok false
    | some members => Except.ok (members.contains (uid_to_dn flags uid))

/-- `LdapDriver.has_role(uid, role, project_id=None)`. -/
def has_role (flags : LdapFlags) (global_role_dn : String → String)
    (users : List String) (groups : GroupDir) (uid role : String)
    (project_id : Option String) : Except PyErr Bool :=
  is_in_group flags users groups uid (role_to_dn flags global_role_dn role project_id)

/-- A directory operation issued by the driver, for frame conditions. -/
inductive DirOp where
  | search (base query : String)
  | modReplace (dn : String) (attrs : List (String × String))
deriving Repr, DecidableEq

/-- Python truthiness of an optional string argument: both `None` and
`''` are falsy. -/
def isTruthy : Option String → Bool
  | none => false
  | some s => !s.isEmpty

/-- `LdapDriver.modify_project(project_id, manager_uid=None,
description=None)`.  Returns the trace of directory operations
performed (searches and the final `modify_s`). -/
def modify_project (flags : LdapFlags) (users : List String)
    (project_id : String) (manager_uid description : Option String) :
    Except PyErr (List DirOp) :=
  if !(isTruthy manager_uid) && !(isTruthy description) then
    Except.ok []
  else
    let checkManager : Except PyErr (List DirOp × List (String × String)) :=
      match manager_uid with
      | some m =>
          if isTruthy (some m) then
            -- __user_exists(manager_uid) issues a subtree search
            if users.contains m then
              Except.ok
                ([DirOp.search flags.ldap_user_subtree
                    ("(&(" ++ flags.ldap_user_id_attribute ++ "=" ++ m ++
                     ")(objectclass=novaUser))")],
                 [("owner", uid_to_dn flags m)])
            else
              Except.error (PyErr.notFound
                ("Project can't be modified because manager " ++ m ++
                 " doesn't exist"))
          else Except.ok ([], [])
      | none => Except.ok ([], [])
    match checkManager with
    | Except.error e => Except.error e
    | Except.ok (ops, attr) =>
        let attr := match description with
          | some d => if isTruthy (some d) then attr ++ [("description", d)] else attr
          | none => attr
        -- __project_to_dn issues a subtree search, then modify_s
        let dn := project_to_dn flags project_id
        Except.ok (ops ++
          [DirOp.search flags.ldap_project_subtree
            ("(&(cn=" ++ project_id ++ ")(owner=*))"),
           DirOp.modReplace dn attr])

/-! ## nova/auth/signer.py : Signer._calc_signature_2

Strings are Python 2 byte strings; we assume ASCII content (true for
EC2 query parameters) and model bytes as `Char`.  The HMAC primitives
are external (`hmac`/`hashlib`); they are passed in as opaque
functions, and the theorems are about the canonical string handed to
them. -/

/-- Characters Python 2 `urllib.quote` never escapes regardless of the
`safe` argument (`always_safe`): letters, digits, `_`, `.`, `-`. -/
def urllibAlwaysSafe (c : Char) : Bool :=
  c.isAlpha || c.isDigit || c = '_' || c = '.' || c = '-'

/-- Uppercase hex digit, as used by `urllib.quote`'s `%%%02X` format. -/
def hexDigit (n : Nat) : Char :=
  if n < 10 then Char.ofNat ('0'.toNat + n) else Char.ofNat ('A'.toNat + n - 10)

/-- `%XX` escape of one byte. -/
def percentEncodeChar (c : Char) : String :=
  let n := c.toNat % 256
  String.mk ['%', hexDigit (n / 16), hexDigit (n % 16)]

/-- Percent-encode a string, keeping exactly the characters `safe`. -/
def encodeWith (safe : Char → Bool) (s : String) : String :=
  s.data.foldl
    (fun acc c =>
      acc ++ (if safe c then String.singleton c else percentEncodeChar c))
    ""

/-- Python 2 `urllib.quote(s, safe)`. -/
def urllib_quote (safe : List Char) (s : String) : String :=
  encodeWith (fun c => urllibAlwaysSafe c || safe.contains c) s

/-- Byte-wise (case-sensitive) string order of Python 2 `list.sort()`. -/
def charListLe : List Char → List Char → Bool
  | [], _ => true
  | _ :: _, [] => false
  | a :: as, b :: bs =>
      if a = b then charListLe as bs else decide (a.toNat < b.toNat)

def strLe (a b : String) : Bool := charListLe a.data b.data

def insertSorted (k : String) : List String → List String
  | [] => [k]
  | x :: xs => if strLe k x then k :: x :: xs else x :: insertSorted k xs

/-- `keys.sort()`. -/
def sortStrings (l : List String) : List String := l.foldr insertSorted []

/-- The canonical query string of `Signer._calc_signature_2`: keys
sorted case-sensitively, each pair rendered as
`urllib.quote(key, safe='') + '=' + urllib.quote(value, safe='-_~')`
and joined with `&`. -/
def canonical_query_2 (params : List (String × String)) : String :=
  String.intercalate "&"
    ((sortStrings (params.map Prod.fst)).map (fun key =>
      urllib_quote [] key ++ "=" ++
      urllib_quote ['-', '_', '~'] ((assocGet params key).getD "")))

/-- `string_to_sign` of `Signer._calc_signature_2`:
`'%s\n%s\n%s\n' % (verb, server_string, path)` followed by the
canonical query string. -/
def string_to_sign_2 (params : List (String × String))
    (verb server_string path : String) : String :=
  verb ++ "\n" ++ server_string ++ "\n" ++ path ++ "\n" ++
    canonical_query_2 params

/-- `Signer._calc_signature_2(params, verb, server_string, path)`.
`sha256_available` models `hashlib.sha256` being importable (in which
case `self.hmac_256` was set by `__init__`); the function overwrites
`params['SignatureMethod']` with the name of the algorithm it uses and
MACs the canonical string with that algorithm. -/
def calc_signature_2 (sha256_available : Bool)
    (hmac_sha256 hmac_sha1 : String → String)
    (params : List (String × String)) (verb server_string path : String) :
    String :=
  let params :=
    if sha256_available then assocSet params "SignatureMethod" "HmacSHA256"
    else assocSet params "SignatureMethod" "HmacSHA1"
  let mac := if sha256_available then hmac_sha256 else hmac_sha1
  mac (string_to_sign_2 params verb server_string path)

/-- Modelled from the spec: the RFC 3986 unreserved set (letters,
digits, `-`, `.`, `_`, `~`); everything else is escaped. -/
def rfc3986_unreserved (c : Char) : Bool :=
  c.isAlpha || c.isDigit || c = '-' || c = '.' || c = '_' || c = '~'

/-- Modelled from the spec: RFC 3986 percent-encoding. -/
def rfc3986_encode (s : String) : String :=
  encodeWith rfc3986_unreserved s

/-- Modelled from the spec: the canonical query the claim describes --
all parameters sorted case-sensitively, keys and values
percent-encoded per RFC 3986, joined as `key=value` with `&`. -/
def claimed_canonical_query (params : List (String × String)) : String :=
  String.intercalate "&"
    ((sortStrings (params.map Prod.fst)).map (fun key =>
      rfc3986_encode key ++ "=" ++
      rfc3986_encode ((assocGet params key).getD "")))

/-- Modelled from the spec: the claimed V2 string-to-sign. -/
def claimed_string_to_sign (params : List (String × String))
    (verb host path : String) : String :=
  verb ++ "\n" ++ host ++ "\n" ++ path ++ "\n" ++
    claimed_canonical_query params

/-- The safe set actually used for keys: RFC 3986 unreserved minus the
tilde. -/
def amended_key_safe (c : Char) : Bool :=
  c.isAlpha || c.isDigit || c = '-' || c = '.' || c = '_'

/-- The amended canonical query: values per RFC 3986, keys with the
tilde additionally escaped. -/
def amended_canonical_query (params : List (String × String)) : String :=
  String.intercalate "&"
    ((sortStrings (params.map Prod.fst)).map (fun key =>
      encodeWith amended_key_safe key ++ "=" ++
      rfc3986_encode ((assocGet params key).getD "")))

/-- The amended V2 string-to-sign. -/
def amended_string_to_sign (params : List (String × String))
    (verb host path : String) : String :=
  verb ++ "\n" ++ host ++ "\n" ++ path ++ "\n" ++
    amended_canonical_query params

/-! ## nova/endpoint/cloud.py : CloudController

External collaborators (image store, key-pair store, network
allocators, id/mac generators, RPC) are passed in as explicit data:
lookups as functions, fallible calls as failure predicates, side
effects as effect-trace entries.  Fixed-IP allocation is recorded
symbolically (`IpAlloc`) so the theorems can see which pool the address
came from. -/

structure CloudFlags where
  vpn_image_id : String
  simple_network : Bool
  simple_network_bridge : String
  compute_topic : String
deriving Repr, DecidableEq

/-- An image record returned by `images.list` (`_get_image`). -/
structure ImageInfo where
  imageId : String
  kernelId : Option String
  ramdiskId : Option String
deriving Repr, DecidableEq

/-- The fixed-IP allocation performed for one instance: which external
allocator was called, with which arguments. -/
inductive IpAlloc where
  | simple
  | vpn (user_id project_id mac : String)
  | normal (user_id project_id mac : String)
deriving Repr, DecidableEq

/-- The instance record persisted by `run_instances` (`inst.save()`). -/
structure InstRecord where
  instance_id : String
  image_id : String
  kernel_id : Option String
  ramdisk_id : Option String
  user_data : String
  instance_type : String
  reservation_id : String
  launch_time : String
  key_data : String
  key_name : String
  user_id : String
  project_id : String
  mac_address : String
  ami_launch_index : Nat
  bridge_name : String
  private_dns_name : IpAlloc
deriving Repr, DecidableEq

/-- An RPC `cast` of `{method, args:{instance_id}}` to a topic. -/
structure CastMsg where
  topic : String
  method : String
  instance_id : String
deriving Repr, DecidableEq

/-- The external collaborators of `run_instances`. -/
structure RunEnv where
  image_lookup : Option ImageInfo          -- images.list(context, [image_id])
  get_key_pair : String → Option String    -- context.user.get_key_pair(name).public_key
  project_bridge : String                  -- BridgedNetwork.get_network_for_project(...)['bridge_name']
  new_instance_id : Nat → String           -- instdir.new() per loop iteration
  gen_mac : Nat → String                   -- utils.generate_mac() per loop iteration
  reservation_id : String                  -- utils.generate_uid('r')
  launch_time : String                     -- time.strftime(...)

/-- The request parameters of `run_instances` (`kwargs`); `none` models
an absent key. -/
structure RunKwargs where
  image_id : String
  kernel_id : Option String
  ramdisk_id : Option String
  max_count : Nat
  key_name : Option String
  instance_type : Option String
  user_data : Option String

/-- `CloudController.run_instances(context, **kwargs)`: returns the
persisted instance records and the emitted casts.

Line-by-line: the image is fetched only when `kwargs['image_id'] !=
FLAGS.vpn_image_id`, yet `image_id = image['imageId']` is executed
unconditionally, so a vpn-image request hits the unbound local `image`
(the `FIXME(ja): if image is cloudpipe, this breaks` in the source). -/
def run_instances (flags : CloudFlags) (env : RunEnv)
    (user_id project_id : String) (kwargs : RunKwargs) :
    Except PyErr (List InstRecord × List CastMsg) := do
  let imageOpt : Option ImageInfo ←
    if kwargs.image_id ≠ flags.vpn_image_id then
      match env.image_lookup with
      | none => Except.error (PyErr.notFound
          ("Image " ++ kwargs.image_id ++ " could not be found"))
      | some img => pure (some img)
    else
      pure none
  -- image_id = image['imageId'] ; kernel/ramdisk default from the image
  let image ← match imageOpt with
    | none => Except.error PyErr.nameError   -- UnboundLocalError: 'image'
    | some img => pure img
  let image_id := image.imageId
  let kernel_id := match kwargs.kernel_id with
    | some k => some k      -- API parameter overrides the default
    | none => image.kernelId
  let ramdisk_id := match kwargs.ramdisk_id with
    | some r => some r
    | none => image.ramdiskId
  let key_data : Option String ← match kwargs.key_name with
    | none => pure none
    | some kn =>
        match env.get_key_pair kn with
        | none => Except.error (PyErr.apiError ("Key Pair " ++ kn ++ " not found"))
        | some pk => pure (some pk)
  let bridge_name := if flags.simple_network then flags.simple_network_bridge
    else env.project_bridge
  let build : Nat → InstRecord := fun num =>
    let mac := env.gen_mac num
    { instance_id := env.new_instance_id num
      image_id := image_id
      kernel_id := kernel_id
      ramdisk_id := ramdisk_id
      user_data := kwargs.user_data.getD ""
      instance_type := kwargs.instance_type.getD "m1.small"
      reservation_id := env.reservation_id
      launch_time := env.launch_time
      key_data := key_data.getD ""          -- key_data or ''
      key_name := kwargs.key_name.getD ""
      user_id := user_id
      project_id := project_id
      mac_address := mac
      ami_launch_index := num
      bridge_name := bridge_name
      private_dns_name :=
        if flags.simple_network then IpAlloc.simple
        else if image_id = flags.vpn_image_id then
          IpAlloc.vpn user_id project_id mac
        else IpAlloc.normal user_id project_id mac }
  let insts := (List.range kwargs.max_count).map build
  let casts := insts.map (fun i =>
    { topic := flags.compute_topic, method := "run_instance",
      instance_id := i.instance_id })
  pure (insts, casts)

/-! ### terminate_instances -/

/-- An instance record as read by `terminate_instances` /
`_get_instance`; `none` models an absent dict key. -/
structure TermInstance where
  instance_id : String
  project_id : String
  public_dns_name : Option String
  private_dns_name : Option String
  node_name : Option String
deriving Repr, DecidableEq

/-- Failure behaviour of the external network calls. -/
structure TerminateEnv where
  disassociate_fails : String → Bool
  deallocate_fails : String → Bool

/-- Observable steps of `terminate_instances`. -/
inductive TermEffect where
  | warnNotFound (instance_id : String)
  | disassociated (address : String)
  | disassociateSwallowed (address : String)
  | deallocated (address : String)
  | deallocateSwallowed (address : String)
  | cast (topic method instance_id : String)
  | destroyed (instance_id : String)
deriving Repr, DecidableEq

/-- `CloudController._get_instance(context, instance_id)` as a lookup:
the instance whose id matches and which the caller may access. -/
def find_instance (is_admin : Bool) (ctx_project : String)
    (instances : List TermInstance) (iid : String) : Option TermInstance :=
  instances.find? (fun i => i.instance_id = iid &&
    (is_admin || i.project_id = ctx_project))

/-- One iteration of the `terminate_instances` loop for one id. -/
def terminate_one (flags : CloudFlags) (env : TerminateEnv) (is_admin : Bool)
    (ctx_project : String) (instances : List TermInstance) (iid : String) :
    Except PyErr (List TermEffect) :=
  match find_instance is_admin ctx_project instances iid with
  | none => Except.ok [TermEffect.warnNotFound iid]
  | some inst =>
      -- try: disassociate_address(get('public_dns_name', 'bork')) except: pass
      let addr := inst.public_dns_name.getD "bork"
      let e1 := if env.disassociate_fails addr then
          [TermEffect.disassociateSwallowed addr]
        else [TermEffect.disassociated addr]
      let node := inst.node_name.getD "unassigned"
      let tail := if node ≠ "unassigned" then
          [TermEffect.cast (flags.compute_topic ++ "." ++ node)
            "terminate_instance" iid]
        else [TermEffect.destroyed iid]
      if isTruthy inst.private_dns_name then
        let priv := inst.private_dns_name.getD ""
        if flags.simple_network then
          -- deallocate_simple_ip is NOT wrapped in try/except
          if env.deallocate_fails priv then
            Except.error (PyErr.externalError "deallocate_simple_ip failed")
          else Except.ok (e1 ++ [TermEffect.deallocated priv] ++ tail)
        else
          -- try: deallocate_ip(...) except Exception: pass
          if env.deallocate_fails priv then
            Except.ok (e1 ++ [TermEffect.deallocateSwallowed priv] ++ tail)
          else Except.ok (e1 ++ [TermEffect.deallocated priv] ++ tail)
      else Except.ok (e1 ++ tail)

/-- `CloudController.terminate_instances(context, instance_id)`: the
loop over the id list; returns the effect trace and the
`defer.succeed(True)` result. -/
def terminate_instances (flags : CloudFlags) (env : TerminateEnv)
    (is_admin : Bool) (ctx_project : String) (instances : List TermInstance)
    (ids : List String) : Except PyErr (List TermEffect × Bool) := do
  let effs ← ids.foldlM
    (fun acc iid => do
      let e ← terminate_one flags env is_admin ctx_project instances iid
      pure (acc ++ e))
    []
  pure (effs, true)

/-! ### attach_volume -/

/-- A volume record as read by `attach_volume` / `_get_volume`. -/
structure VolRecord where
  volume_id : String
  project_id : String
  status : String
  instance_id : Option String
  mountpoint : Option String
deriving Repr, DecidableEq

/-- Observable steps of `attach_volume`. -/
inductive AttachEffect where
  | startAttach (volume_id instance_id mountpoint : String)
  | cast (topic method volume_id instance_id mountpoint : String)
deriving Repr, DecidableEq

/-- `CloudController._get_volume(context, volume_id)`. -/
def get_volume (is_admin : Bool) (ctx_project : String)
    (volumes : List VolRecord) (vid : String) : Except PyErr VolRecord :=
  match volumes.find? (fun v => v.volume_id = vid) with
  | none => Except.error (PyErr.notFound
      ("Volume " ++ vid ++ " could not be found"))
  | some v =>
      if is_admin || v.project_id = ctx_project then Except.ok v
      else Except.error (PyErr.notFound
        ("Volume " ++ vid ++ " could not be found"))

/-- The device-conflict scan of `attach_volume`: the first volume (any
volume in the system, the one being attached included) recorded with
this instance id and mountpoint. -/
def find_conflict (volumes : List VolRecord) (instance_id device : String) :
    Option VolRecord :=
  volumes.find? (fun vol => vol.instance_id = some instance_id &&
    vol.mountpoint = some device)

/-- `CloudController.attach_volume(context, volume_id, instance_id,
device)`: returns the effect trace together with the exception raised,
if any (`start_attach` happens before the instance lookup, so its
effect is visible even when the lookup raises `NotFound`). -/
def attach_volume (flags : CloudFlags) (is_admin : Bool) (ctx_project : String)
    (volumes : List VolRecord) (instances : List TermInstance)
    (volume_id instance_id device : String) :
    List AttachEffect × Option PyErr :=
  match get_volume is_admin ctx_project volumes volume_id with
  | Except.error e => ([], some e)
  | Except.ok volume =>
      if volume.status = "attached" then
        ([], some (PyErr.apiError "Volume is already attached"))
      else
        match find_conflict volumes instance_id device with
        | some vol =>
            ([], some (PyErr.apiError ("Volume " ++ vol.volume_id ++
              " is already attached to " ++ (vol.mountpoint.getD ""))))
        | none =>
            let e1 := [AttachEffect.startAttach volume_id instance_id device]
            match find_instance is_admin ctx_project instances instance_id with
            | none => (e1, some (PyErr.notFound
                ("Instance " ++ instance_id ++ " could not be found")))
            | some inst =>
                match inst.node_name with
                | none => (e1, some (PyErr.externalError "KeyError: node_name"))
                | some node =>
                    (e1 ++ [AttachEffect.cast
                      (flags.compute_topic ++ "." ++ node) "attach_volume"
                      volume_id instance_id device], none)

/-! ### Concrete scenario data -/

/-- Deployment flags with the VLAN/bridged (non-simple) network mode. -/
def flagsNS : CloudFlags :=
  { vpn_image_id := "ami-cloudpipe", simple_network := false,
    simple_network_bridge := "br100", compute_topic := "compute" }

/-- Deployment flags with `simple_network` enabled. -/
def flagsSimple : CloudFlags :=
  { vpn_image_id := "ami-cloudpipe", simple_network := true,
    simple_network_bridge := "br100", compute_topic := "compute" }

/-- A concrete `run_instances` environment. -/
def runEnvC : RunEnv :=
  { image_lookup := some ⟨"ami-00000001", some "aki-default", some "ari-default"⟩
    get_key_pair := fun _ => some "ssh-rsa AAAA"
    project_bridge := "br200"
    new_instance_id := fun n => "i-0000000" ++ toString (n + 1)
    gen_mac := fun n => "02:16:3e:00:00:0" ++ toString n
    reservation_id := "r-abcdefgh"
    launch_time := "2010-09-01T00:00:00Z" }

/-- A network environment in which every external call fails. -/
def envAllFailing : TerminateEnv :=
  { disassociate_fails := fun _ => true, deallocate_fails := fun _ => true }

/-- An instance without an assigned host (`node_name` unset). -/
def instNoNode : TermInstance :=
  { instance_id := "i-00000001", project_id := "p1",
    public_dns_name := none, private_dns_name := some "10.0.0.3",
    node_name := none }

/-- An instance scheduled on host `node1`. -/
def instOnNode : TermInstance :=
  { instance_id := "i-00000001", project_id := "p1",
    public_dns_name := some "1.2.3.4", private_dns_name := some "10.0.0.3",
    node_name := some "node1" }

/-- A volume still in status `creating`. -/
def volCreating : VolRecord :=
  { volume_id := "vol-00000001", project_id := "p1", status := "creating",
    instance_id := none, mountpoint := none }

/-- A volume already attached to `i-00000001` at `/dev/sdf`. -/
def volAttached : VolRecord :=
  { volume_id := "vol-00000002", project_id := "p1", status := "attached",
    instance_id := some "i-00000001", mountpoint := some "/dev/sdf" }

end Nova

/-! # Theorems -/

namespace Nova

/-- C7: a successful poll (`update_metadata`) sets `attempt` to 0,
`is_active` to true and takes `name`/`capabilities` from the reply; a
failed poll (`log_error`) increments `attempt` and records the error,
and as soon as `attempt` reaches `zone_failures_to_offline` the zone
becomes inactive; with the default threshold 3, a fresh zone is still
active after two consecutive failures and inactive after three, and a
subsequent successful poll resets `attempt` and reactivates it. -/
theorem zone_state_poll_spec :
    (∀ (zs : ZoneState) (md : ZoneMetadata) (now : Nat),
      (zs.update_metadata md now).attempt = 0 ∧
      (zs.update_metadata md now).is_active = true ∧
      (zs.update_metadata md now).name = some md.name ∧
      (zs.update_metadata md now).capabilities = some md.capabilities) ∧
    (∀ (thr : Nat) (zs : ZoneState) (e : String) (now : Nat),
      (ZoneState.log_error thr zs e now).attempt = zs.attempt + 1 ∧
      (ZoneState.log_error thr zs e now).last_exception = some e ∧
      (thr ≤ zs.attempt + 1 →
        (ZoneState.log_error thr zs e now).is_active = false)) ∧
    ((ZoneState.log_error zone_failures_to_offline_default
        (ZoneState.log_error zone_failures_to_offline_default
          ZoneState.init "e1" 1) "e2" 2).is_active = true) ∧
    ((ZoneState.log_error zone_failures_to_offline_default
        (ZoneState.log_error zone_failures_to_offline_default
          (ZoneState.log_error zone_failures_to_offline_default
            ZoneState.init "e1" 1) "e2" 2) "e3" 3).is_active = false) ∧
    ((ZoneState.log_error zone_failures_to_offline_default
        (ZoneState.log_error zone_failures_to_offline_default
          (ZoneState.log_error zone_failures_to_offline_default
            ZoneState.init "e1" 1) "e2" 2) "e3" 3).update_metadata
              ⟨"z1", [("cpu", 4)]⟩ 4 =
      { is_active := true, name := some "z1",
        capabilities := some [("cpu", 4)], attempt := 0, last_seen := 4,
        last_exception := some "e3", last_exception_time := some 3 }) := by
  refine ⟨fun zs md now => ⟨rfl, rfl, rfl, rfl⟩, fun thr zs e now => ?_, ?_, ?_, ?_⟩
  · refine ⟨?_, ?_, ?_⟩
    · simp only [ZoneState.log_error]
      split <;> rfl
    · simp only [ZoneState.log_error]
      split <;> rfl
    · intro h
      simp only [ZoneState.log_error, if_pos h]
  · decide
  · decide
  · decide

/-- C7 witness: instantiation of `zone_state_poll_spec` at a concrete
state discharging the threshold hypothesis. -/
theorem zone_state_poll_spec_witness :
    (ZoneState.log_error 1 ZoneState.init "boom" 7).is_active = false := by
  have h := zone_state_poll_spec
  exact (h.2.1 1 ZoneState.init "boom" 7).2.2 (by decide)

/-- Removing all entries with key `k` makes a later lookup of `k` fail. -/
theorem assocGet_assocRemove_self {α : Type} (m : List (String × α)) (k : String) :
    assocGet (assocRemove m k) k = none := by
  induction m with
  | nil => rfl
  | cons hd tl ih =>
      by_cases h : hd.1 = k
      · simpa [assocRemove, h] using ih
      · simpa [assocRemove, assocGet, h] using ih

/-- C9: a non-admin `describe_key_pairs` result omits every key pair
whose name ends with `FLAGS.vpn_key_suffix`; an admin caller's result
contains every one of the user's key pairs, the vpn-suffixed ones
included. -/
theorem describe_key_pairs_vpn_filter :
    (∀ (suffix : String) (kps : List KeyPair) (kn : Option (List String))
        (r : String × String),
      r ∈ describe_key_pairs false suffix kps kn → ¬ r.1.endsWith suffix) ∧
    (∀ (suffix : String) (kps : List KeyPair) (kp : KeyPair),
      kp ∈ kps →
      (kp.name, kp.fingerprint) ∈ describe_key_pairs true suffix kps none) := by
  constructor
  · intro suffix kps kn r hr
    simp only [describe_key_pairs, List.mem_map, List.mem_filter,
      Bool.false_or] at hr
    obtain ⟨kp, ⟨_, hpred⟩, hrfl⟩ := hr
    subst hrfl
    simpa using hpred
  · intro suffix kps kp hkp
    simp only [describe_key_pairs, List.mem_map, List.mem_filter,
      Bool.true_or]
    exact ⟨kp, ⟨hkp, trivial⟩, rfl⟩

/-- C9 witness: an admin caller sees a vpn-suffixed key pair, and that
pair never shows up for a non-admin caller. -/
theorem describe_key_pairs_vpn_filter_witness :
    ("proj-vpn", "aa:bb") ∈
      describe_key_pairs true "-vpn" [⟨"proj-vpn", "aa:bb"⟩] none :=
  describe_key_pairs_vpn_filter.2 "-vpn" [⟨"proj-vpn", "aa:bb"⟩]
    ⟨"proj-vpn", "aa:bb"⟩ (by simp)

/-- C5: whenever `create_project` succeeds, the manager's DN is among
the stored members, and an omitted description defaults to the project
name. -/
theorem create_project_manager_member :
    ∀ (flags : LdapFlags) (users projects : List String)
      (name manager_uid : String) (descr : Option String)
      (member_uids : Option (List String)) (p : ProjectEntry),
      create_project flags users projects name manager_uid descr member_uids =
        Except.ok p →
      p.members.contains (uid_to_dn flags manager_uid) = true ∧
      (descr = none → p.description = name) := by
  intro flags users projects name manager_uid descr member_uids p h
  unfold create_project at h
  split at h
  · exact absurd h (by simp)
  · split at h
    · exact absurd h (by simp)
    · cases hbm : buildMembers flags users member_uids with
      | error e => rw [hbm] at h; exact absurd h (by simp)
      | ok members =>
          rw [hbm] at h
          simp only [Except.ok.injEq] at h
          subst h
          constructor
          · by_cases hc : uid_to_dn flags manager_uid ∈ members
            · simp [hc]
            · simp [hc]
          · intro hd
            subst hd
            rfl

/-- C5 witness: concrete project creation with omitted description and
omitted member list. -/
theorem create_project_manager_member_witness :
    (ProjectEntry.members
        { cn := "p1", description := "p1",
          manager_dn := "uid=mgr,ou=Users,dc=example,dc=com",
          members := ["uid=mgr,ou=Users,dc=example,dc=com"] }).contains
      (uid_to_dn
        ⟨"uid", "ou=Users,dc=example,dc=com", "ou=Groups,dc=example,dc=com"⟩
        "mgr") = true ∧
    ((none : Option String) = none →
      ProjectEntry.description
        { cn := "p1", description := "p1",
          manager_dn := "uid=mgr,ou=Users,dc=example,dc=com",
          members := ["uid=mgr,ou=Users,dc=example,dc=com"] } = "p1") :=
  create_project_manager_member
    ⟨"uid", "ou=Users,dc=example,dc=com", "ou=Groups,dc=example,dc=com"⟩
    ["mgr"] [] "p1" "mgr" none none _ rfl

/-- C6: when a user is the last remaining member of a role group,
`__safe_remove_from_group` deletes the group instead of failing, and a
subsequent `has_role` for that role returns `false` without raising. -/
theorem safe_remove_last_member_deletes_group :
    ∀ (flags : LdapFlags) (grdn : String → String) (users : List String)
      (groups : GroupDir) (uid role : String) (pid : Option String),
      users.contains uid = true →
      assocGet groups (role_to_dn flags grdn role pid) =
        some [uid_to_dn flags uid] →
      ∃ groups',
        safe_remove_from_group flags groups uid
            (role_to_dn flags grdn role pid) = Except.ok groups' ∧
        assocGet groups' (role_to_dn flags grdn role pid) = none ∧
        has_role flags grdn users groups' uid role pid = Except.ok false := by
  intro flags grdn users groups uid role pid husers hgroup
  refine ⟨assocRemove groups (role_to_dn flags grdn role pid), ?_, ?_, ?_⟩
  · simp [safe_remove_from_group, mod_delete_member, hgroup, delete_group]
  · exact assocGet_assocRemove_self groups _
  · have hm : uid ∈ users := by simpa using husers
    simp [has_role, is_in_group, hm, assocGet_assocRemove_self]

/-- C6 witness: a concrete one-member role group. -/
theorem safe_remove_last_member_deletes_group_witness :
    ∃ groups',
      safe_remove_from_group
          ⟨"uid", "ou=Users,dc=example,dc=com", "ou=Groups,dc=example,dc=com"⟩
          [("cn=sysadmin,cn=p1,ou=Groups,dc=example,dc=com",
            ["uid=u1,ou=Users,dc=example,dc=com"])]
          "u1"
          (role_to_dn
            ⟨"uid", "ou=Users,dc=example,dc=com", "ou=Groups,dc=example,dc=com"⟩
            (fun r => "cn=" ++ r ++ "s,ou=Groups,dc=example,dc=com")
            "sysadmin" (some "p1")) = Except.ok groups' ∧
      assocGet groups'
        (role_to_dn
          ⟨"uid", "ou=Users,dc=example,dc=com", "ou=Groups,dc=example,dc=com"⟩
          (fun r => "cn=" ++ r ++ "s,ou=Groups,dc=example,dc=com")
          "sysadmin" (some "p1")) = none ∧
      has_role
        ⟨"uid", "ou=Users,dc=example,dc=com", "ou=Groups,dc=example,dc=com"⟩
        (fun r => "cn=" ++ r ++ "s,ou=Groups,dc=example,dc=com")
        ["u1"]
        groups' "u1" "sysadmin" (some "p1") = Except.ok false :=
  safe_remove_last_member_deletes_group
    ⟨"uid", "ou=Users,dc=example,dc=com", "ou=Groups,dc=example,dc=com"⟩
    (fun r => "cn=" ++ r ++ "s,ou=Groups,dc=example,dc=com")
    ["u1"]
    [("cn=sysadmin,cn=p1,ou=Groups,dc=example,dc=com",
      ["uid=u1,ou=Users,dc=example,dc=com"])]
    "u1" "sysadmin" (some "p1") (by simp) (by simp [role_to_dn, project_to_dn, assocGet, uid_to_dn])

/-- C10: `modify_project` called with neither a manager nor a
description returns immediately: no search, no existence check, no
modify operation is issued. -/
theorem modify_project_noop :
    ∀ (flags : LdapFlags) (users : List String) (pid : String),
      modify_project flags users pid none none = Except.ok [] := by
  intro flags users pid
  rfl

/-- The key safe set of `urllib.quote(key, safe='')` equals the
RFC 3986 unreserved set minus the tilde. -/
theorem key_safe_eq (c : Char) :
    (urllibAlwaysSafe c || ([] : List Char).contains c) = amended_key_safe c := by
  by_cases h1 : c = '_'
  · subst h1; decide
  · by_cases h2 : c = '.'
    · subst h2; decide
    · by_cases h3 : c = '-'
      · subst h3; decide
      · simp [urllibAlwaysSafe, amended_key_safe, h1, h2, h3]

/-- The value safe set of `urllib.quote(val, safe='-_~')` equals the
RFC 3986 unreserved set. -/
theorem value_safe_eq (c : Char) :
    (urllibAlwaysSafe c || (['-', '_', '~'] : List Char).contains c) =
      rfc3986_unreserved c := by
  by_cases h1 : c = '_'
  · subst h1; decide
  · by_cases h2 : c = '.'
    · subst h2; decide
    · by_cases h3 : c = '-'
      · subst h3; decide
      · by_cases h4 : c = '~'
        · subst h4; decide
        · simp [urllibAlwaysSafe, rfc3986_unreserved, h1, h2, h3, h4]

theorem urllib_quote_key_eq (s : String) :
    urllib_quote [] s = encodeWith amended_key_safe s := by
  unfold urllib_quote
  congr 1
  funext c
  exact key_safe_eq c

theorem urllib_quote_value_eq (s : String) :
    urllib_quote ['-', '_', '~'] s = rfc3986_encode s := by
  unfold urllib_quote rfc3986_encode
  congr 1
  funext c
  exact value_safe_eq c

theorem canonical_query_2_eq_amended (params : List (String × String)) :
    canonical_query_2 params = amended_canonical_query params := by
  unfold canonical_query_2 amended_canonical_query
  have hf : (fun key => urllib_quote [] key ++ "=" ++
        urllib_quote ['-', '_', '~'] ((assocGet params key).getD "")) =
      (fun key => encodeWith amended_key_safe key ++ "=" ++
        rfc3986_encode ((assocGet params key).getD "")) :=
    funext fun key => by rw [urllib_quote_key_eq, urllib_quote_value_eq]
  rw [hf]

/-- C4 counterexample: for a parameter key containing `~` the string
actually signed is not the claimed RFC 3986 canonical form — the code
escapes the tilde in keys (`urllib.quote(key, safe='')` leaves only
letters, digits and `_.-` unescaped) while RFC 3986 keeps `~`
unreserved. -/
theorem calc_signature_2_key_tilde_counterexample :
    string_to_sign_2 [("a~", "x")] "GET" "host" "/p" ≠
      claimed_string_to_sign [("a~", "x")] "GET" "host" "/p" := by
  decide

/-- C4 (amended): the V2 string-to-sign is
`VERB\nhost\npath\n` followed by the `&`-join of the case-sensitively
sorted parameters as `key=value`, with values percent-encoded per
RFC 3986 and keys per RFC 3986 with the tilde additionally escaped;
`SignatureMethod` is overwritten with the algorithm actually used, and
the MAC is HmacSHA256 when SHA-256 is available, HmacSHA1 otherwise.
The concrete scenario of the claim signs exactly the claimed string. -/
theorem calc_signature_2_canonical :
    (∀ (avail : Bool) (mac256 mac1 : String → String)
        (params : List (String × String)) (verb host path : String),
      calc_signature_2 avail mac256 mac1 params verb host path =
        (if avail then mac256 else mac1)
          (amended_string_to_sign
            (assocSet params "SignatureMethod"
              (if avail then "HmacSHA256" else "HmacSHA1"))
            verb host path)) ∧
    string_to_sign_2
        [("SignatureMethod", "HmacSHA256"), ("SignatureVersion", "2"),
         ("Action", "Foo"), ("Timestamp", "T")] "GET" "host" "/p" =
      "GET\nhost\n/p\nAction=Foo&SignatureMethod=HmacSHA256&SignatureVersion=2&Timestamp=T" := by
  constructor
  · intro avail mac256 mac1 params verb host path
    cases avail <;>
      simp [calc_signature_2, string_to_sign_2, amended_string_to_sign,
        canonical_query_2_eq_amended]
  · decide

/-- C8: with `service_states = {"compute": {"h1": {"cpu": 1}}}`, calling
`get_zone_capabilities` with `service="compute"` raises
`AttributeError` (the loop calls `.iteritems()` on the string stored
under the `service_name` key of the rebuilt dict) instead of returning
the restriction `{"compute_cpu": (1, 1)}`; the unrestricted call
aggregates correctly. -/
theorem get_zone_capabilities_service_crash :
    get_zone_capabilities [("compute", [("h1", [("cpu", 1)])])] (some "compute") =
      Except.error PyErr.attributeError ∧
    get_zone_capabilities [("compute", [("h1", [("cpu", 1)])])] none =
      Except.ok [("compute_cpu", (1, 1))] ∧
    get_zone_capabilities
        [("compute", [("h1", [("cpu", 1)]), ("h2", [("cpu", 5)])])] none =
      Except.ok [("compute_cpu", (1, 5))] := by
  refine ⟨rfl, rfl, rfl⟩

/-- C1: evaluation of `run_instances`.  A request for the configured
vpn image raises `UnboundLocalError` (the local `image` is only bound
when `image_id != FLAGS.vpn_image_id`, yet `image['imageId']` is read
unconditionally), so the claimed vpn-pool allocation never happens.
For a non-vpn image the rest of the claim is exhibited: one
`reservation_id` shared by both records, kernel id defaulted from the
image, ramdisk id overridden by the request, a fixed IP allocated from
the normal pool for each instance, both records persisted and one
`run_instance` cast per instance emitted to the `compute` topic. -/
theorem run_instances_eval :
    run_instances flagsNS runEnvC "u1" "p1"
      { image_id := "ami-cloudpipe", kernel_id := none, ramdisk_id := none,
        max_count := 1, key_name := none, instance_type := none,
        user_data := none } =
      Except.error PyErr.nameError ∧
    run_instances flagsNS runEnvC "u1" "p1"
      { image_id := "ami-00000001", kernel_id := none,
        ramdisk_id := some "ari-override", max_count := 2, key_name := none,
        instance_type := some "m1.small", user_data := none } =
      Except.ok
        ([{ instance_id := "i-00000001", image_id := "ami-00000001",
            kernel_id := some "aki-default", ramdisk_id := some "ari-override",
            user_data := "", instance_type := "m1.small",
            reservation_id := "r-abcdefgh",
            launch_time := "2010-09-01T00:00:00Z",
            key_data := "", key_name := "", user_id := "u1",
            project_id := "p1", mac_address := "02:16:3e:00:00:00",
            ami_launch_index := 0, bridge_name := "br200",
            private_dns_name := IpAlloc.normal "u1" "p1" "02:16:3e:00:00:00" },
          { instance_id := "i-00000002", image_id := "ami-00000001",
            kernel_id := some "aki-default", ramdisk_id := some "ari-override",
            user_data := "", instance_type := "m1.small",
            reservation_id := "r-abcdefgh",
            launch_time := "2010-09-01T00:00:00Z",
            key_data := "", key_name := "", user_id := "u1",
            project_id := "p1", mac_address := "02:16:3e:00:00:01",
            ami_launch_index := 1, bridge_name := "br200",
            private_dns_name := IpAlloc.normal "u1" "p1" "02:16:3e:00:00:01" }],
         [{ topic := "compute", method := "run_instance",
            instance_id := "i-00000001" },
          { topic := "compute", method := "run_instance",
            instance_id := "i-00000002" }]) :=
  ⟨rfl, rfl⟩

/-- C2 counterexample: with `simple_network` enabled the private-IP
deallocation (`network.deallocate_simple_ip`) is not wrapped in
try/except, so a deallocation failure propagates and aborts the whole
call instead of being swallowed. -/
theorem terminate_instances_dealloc_not_swallowed :
    terminate_instances flagsSimple envAllFailing false "p1" [instNoNode]
      ["i-00000001"] =
      Except.error (PyErr.externalError "deallocate_simple_ip failed") := rfl

/-- In the non-simple network mode one terminate iteration never
raises, and its effect list carries the warning / cast / destroy
prescribed for the id. -/
theorem terminate_one_nonsimple_spec :
    ∀ (flags : CloudFlags) (env : TerminateEnv) (admin : Bool) (ctxp : String)
      (instances : List TermInstance) (iid : String),
      flags.simple_network = false →
      (find_instance admin ctxp instances iid = none →
        terminate_one flags env admin ctxp instances iid =
          Except.ok [TermEffect.warnNotFound iid]) ∧
      (∀ inst, find_instance admin ctxp instances iid = some inst →
        ∃ e, terminate_one flags env admin ctxp instances iid = Except.ok e ∧
          (inst.node_name.getD "unassigned" ≠ "unassigned" →
            TermEffect.cast
              (flags.compute_topic ++ "." ++ inst.node_name.getD "unassigned")
              "terminate_instance" iid ∈ e) ∧
          (inst.node_name.getD "unassigned" = "unassigned" →
            TermEffect.destroyed iid ∈ e)) := by
  intro flags env admin ctxp instances iid h
  constructor
  · intro hfi
    unfold terminate_one
    rw [hfi]
  · intro inst hfi
    unfold terminate_one
    rw [hfi, h]
    simp only [Bool.false_eq_true, if_false]
    by_cases hp : isTruthy inst.private_dns_name = true
    · rw [if_pos hp]
      by_cases hd : env.deallocate_fails (inst.private_dns_name.getD "") = true
      · rw [if_pos hd]
        refine ⟨_, rfl, fun hn => ?_, fun hn => ?_⟩ <;> simp [hn]
      · rw [if_neg hd]
        refine ⟨_, rfl, fun hn => ?_, fun hn => ?_⟩ <;> simp [hn]
    · rw [if_neg hp]
      refine ⟨_, rfl, fun hn => ?_, fun hn => ?_⟩ <;> simp [hn]

/-- Folding the terminate loop: when every iteration succeeds, the loop
succeeds and every iteration's effects land in the final trace. -/
theorem terminate_fold_spec :
    ∀ (flags : CloudFlags) (env : TerminateEnv) (admin : Bool) (ctxp : String)
      (instances : List TermInstance) (ids : List String)
      (acc : List TermEffect),
      (∀ iid ∈ ids, ∃ e,
        terminate_one flags env admin ctxp instances iid = Except.ok e) →
      ∃ effs,
        (ids.foldlM
          (fun acc iid => do
            let e ← terminate_one flags env admin ctxp instances iid
            pure (acc ++ e))
          acc) = Except.ok effs ∧
        (∀ x ∈ acc, x ∈ effs) ∧
        (∀ iid ∈ ids, ∀ e,
          terminate_one flags env admin ctxp instances iid = Except.ok e →
          ∀ x ∈ e, x ∈ effs) := by
  intro flags env admin ctxp instances ids
  induction ids with
  | nil =>
      intro acc _
      exact ⟨acc, rfl, fun x hx => hx, fun iid hiid => absurd hiid (by simp)⟩
  | cons iid ids ih =>
      intro acc hall
      obtain ⟨e, he⟩ := hall iid (by simp)
      obtain ⟨effs, heffs, hacc, hids⟩ :=
        ih (acc ++ e) (fun i hi => hall i (by simp [hi]))
      refine ⟨effs, ?_, ?_, ?_⟩
      · simpa [List.foldlM, he] using heffs
      · intro x hx
        exact hacc x (by simp [hx])
      · intro i hi e' he' x hx
        rcases List.mem_cons.mp hi with hi | hi
        · subst hi
          rw [he] at he'
          injection he' with he'
          subst he'
          exact hacc x (by simp [hx])
        · exact hids i hi e' he' x hx

/-- C2 (amended): in the non-simple network mode the claim holds as
written: every id with no accessible instance is skipped with a warning
and the call still returns success, floating-IP disassociation and
private-IP deallocation failures are swallowed (the call succeeds for
every failure pattern of the network environment), and each found
instance gets either a `terminate_instance` cast to `compute.<host>`
(host assigned) or a direct destroy (no host).  In `simple_network`
mode a private-IP deallocation failure instead propagates
(`terminate_instances_dealloc_not_swallowed`). -/
theorem terminate_instances_amended :
    ∀ (flags : CloudFlags) (env : TerminateEnv) (admin : Bool) (ctxp : String)
      (instances : List TermInstance) (ids : List String),
      flags.simple_network = false →
      ∃ effs,
        terminate_instances flags env admin ctxp instances ids =
          Except.ok (effs, true) ∧
        ∀ iid ∈ ids,
          (find_instance admin ctxp instances iid = none →
            TermEffect.warnNotFound iid ∈ effs) ∧
          (∀ inst, find_instance admin ctxp instances iid = some inst →
            (inst.node_name.getD "unassigned" ≠ "unassigned" →
              TermEffect.cast
                (flags.compute_topic ++ "." ++ inst.node_name.getD "unassigned")
                "terminate_instance" iid ∈ effs) ∧
            (inst.node_name.getD "unassigned" = "unassigned" →
              TermEffect.destroyed iid ∈ effs)) := by
  intro flags env admin ctxp instances ids h
  have hone := fun iid =>
    terminate_one_nonsimple_spec flags env admin ctxp instances iid h
  have hall : ∀ iid ∈ ids, ∃ e,
      terminate_one flags env admin ctxp instances iid = Except.ok e := by
    intro iid _
    rcases hfi : find_instance admin ctxp instances iid with _ | inst
    · exact ⟨_, (hone iid).1 hfi⟩
    · obtain ⟨e, he, _⟩ := (hone iid).2 inst hfi
      exact ⟨e, he⟩
  obtain ⟨effs, heffs, _, hids⟩ :=
    terminate_fold_spec flags env admin ctxp instances ids [] hall
  refine ⟨effs, ?_, ?_⟩
  · unfold terminate_instances
    rw [heffs]
    rfl
  · intro iid hiid
    constructor
    · intro hfi
      exact hids iid hiid _ ((hone iid).1 hfi) _ (by simp)
    · intro inst hfi
      obtain ⟨e, he, hcast, hdest⟩ := (hone iid).2 inst hfi
      exact ⟨fun hn => hids iid hiid e he _ (hcast hn),
             fun hn => hids iid hiid e he _ (hdest hn)⟩

/-- C2 witness: the amended theorem applied to a concrete call in
non-simple mode, with every network call failing, one instance on a
host, and one missing id. -/
theorem terminate_instances_amended_witness :
    ∃ effs,
      terminate_instances flagsNS envAllFailing false "p1" [instOnNode]
        ["i-00000001", "i-gone"] = Except.ok (effs, true) ∧
      ∀ iid ∈ ["i-00000001", "i-gone"],
        (find_instance false "p1" [instOnNode] iid = none →
          TermEffect.warnNotFound iid ∈ effs) ∧
        (∀ inst, find_instance false "p1" [instOnNode] iid = some inst →
          (inst.node_name.getD "unassigned" ≠ "unassigned" →
            TermEffect.cast
              (flagsNS.compute_topic ++ "." ++ inst.node_name.getD "unassigned")
              "terminate_instance" iid ∈ effs) ∧
          (inst.node_name.getD "unassigned" = "unassigned" →
            TermEffect.destroyed iid ∈ effs)) :=
  terminate_instances_amended flagsNS envAllFailing false "p1" [instOnNode]
    ["i-00000001", "i-gone"] rfl

/-- C3 counterexample: a volume in status `creating` — not `available`
— with no device conflict is attached without any `ApiError`: the code
only rejects status `attached` (`if volume['status'] == "attached"`). -/
theorem attach_volume_not_available_no_error :
    VolRecord.status volCreating ≠ "available" ∧
    attach_volume flagsNS false "p1" [volCreating] [instOnNode]
      "vol-00000001" "i-00000001" "/dev/sdf" =
      ([AttachEffect.startAttach "vol-00000001" "i-00000001" "/dev/sdf",
        AttachEffect.cast "compute.node1" "attach_volume" "vol-00000001"
          "i-00000001" "/dev/sdf"], none) :=
  ⟨by decide, rfl⟩

/-- C3 (amended): for a found, accessible volume, `attach_volume`
raises `ApiError` when the volume's status is `attached`, or when any
volume in the system (the volume being attached included) is recorded
with the requested instance id and device; when neither holds it
transitions the volume toward attaching and, when the instance is found
and has a host, casts `attach_volume` to `compute.<host>`; the
attaching transition happens only when neither `ApiError` precondition
holds. -/
theorem attach_volume_amended :
    ∀ (flags : CloudFlags) (admin : Bool) (ctxp : String)
      (volumes : List VolRecord) (instances : List TermInstance)
      (vid iid dev : String) (volume : VolRecord),
      get_volume admin ctxp volumes vid = Except.ok volume →
      ((volume.status = "attached" →
        attach_volume flags admin ctxp volumes instances vid iid dev =
          ([], some (PyErr.apiError "Volume is already attached"))) ∧
       (∀ vol, volume.status ≠ "attached" →
        find_conflict volumes iid dev = some vol →
        attach_volume flags admin ctxp volumes instances vid iid dev =
          ([], some (PyErr.apiError ("Volume " ++ vol.volume_id ++
            " is already attached to " ++ (vol.mountpoint.getD ""))))) ∧
       (∀ inst node, volume.status ≠ "attached" →
        find_conflict volumes iid dev = none →
        find_instance admin ctxp instances iid = some inst →
        inst.node_name = some node →
        attach_volume flags admin ctxp volumes instances vid iid dev =
          ([AttachEffect.startAttach vid iid dev,
            AttachEffect.cast (flags.compute_topic ++ "." ++ node)
              "attach_volume" vid iid dev], none)) ∧
       (∀ effs err,
        attach_volume flags admin ctxp volumes instances vid iid dev =
          (effs, err) →
        AttachEffect.startAttach vid iid dev ∈ effs →
        volume.status ≠ "attached" ∧
          find_conflict volumes iid dev = none)) := by
  intro flags admin ctxp volumes instances vid iid dev volume hv
  refine ⟨?_, ?_, ?_, ?_⟩
  · intro hs
    unfold attach_volume
    rw [hv]
    dsimp only
    rw [if_pos hs]
  · intro vol hs hc
    unfold attach_volume
    rw [hv]
    dsimp only
    rw [if_neg hs, hc]
  · intro inst node hs hc hfi hnode
    unfold attach_volume
    rw [hv]
    dsimp only
    rw [if_neg hs, hc, hfi]
    dsimp only
    rw [hnode]
    rfl
  · intro effs err hatt hmem
    unfold attach_volume at hatt
    rw [hv] at hatt
    dsimp only at hatt
    by_cases hs : volume.status = "attached"
    · rw [if_pos hs] at hatt
      injection hatt with h1 h2
      subst h1
      simp at hmem
    · rw [if_neg hs] at hatt
      refine ⟨hs, ?_⟩
      rcases hc : find_conflict volumes iid dev with _ | vol
      · rfl
      · rw [hc] at hatt
        injection hatt with h1 h2
        subst h1
        simp at hmem

/-- C3 witness: the amended theorem applied to a concrete system with
one already-attached volume. -/
theorem attach_volume_amended_witness :
    ((VolRecord.status volAttached = "attached" →
      attach_volume flagsNS false "p1" [volAttached] [instOnNode]
        "vol-00000002" "i-00000002" "/dev/sdg" =
        ([], some (PyErr.apiError "Volume is already attached"))) ∧
     (∀ vol, VolRecord.status volAttached ≠ "attached" →
      find_conflict [volAttached] "i-00000002" "/dev/sdg" = some vol →
      attach_volume flagsNS false "p1" [volAttached] [instOnNode]
        "vol-00000002" "i-00000002" "/dev/sdg" =
        ([], some (PyErr.apiError ("Volume " ++ vol.volume_id ++
          " is already attached to " ++ (vol.mountpoint.getD ""))))) ∧
     (∀ inst node, VolRecord.status volAttached ≠ "attached" →
      find_conflict [volAttached] "i-00000002" "/dev/sdg" = none →
      find_instance false "p1" [instOnNode] "i-00000002" = some inst →
      inst.node_name = some node →
      attach_volume flagsNS false "p1" [volAttached] [instOnNode]
        "vol-00000002" "i-00000002" "/dev/sdg" =
        ([AttachEffect.startAttach "vol-00000002" "i-00000002" "/dev/sdg",
          AttachEffect.cast (flagsNS.compute_topic ++ "." ++ node)
            "attach_volume" "vol-00000002" "i-00000002" "/dev/sdg"], none)) ∧
     (∀ effs err,
      attach_volume flagsNS false "p1" [volAttached] [instOnNode]
        "vol-00000002" "i-00000002" "/dev/sdg" = (effs, err) →
      AttachEffect.startAttach "vol-00000002" "i-00000002" "/dev/sdg" ∈ effs →
      VolRecord.status volAttached ≠ "attached" ∧
        find_conflict [volAttached] "i-00000002" "/dev/sdg" = none)) :=
  attach_volume_amended flagsNS false "p1" [volAttached] [instOnNode]
    "vol-00000002" "i-00000002" "/dev/sdg" volAttached rfl

end Nova
